import Mathlib

/-!
Verification development for the Data Policy Agent repository.

The definitions below embed, in Lean, the data model and operations of the
repository: the TypeScript enums, interfaces and helper functions of
`frontend/src/api/client.ts`, the API wrappers of `frontend/src/api/database.ts`
and `frontend/src/api/monitoring.ts`, the review logic of
`frontend/src/components/ReviewPanel.tsx`, and — for the backend compliance
scanning engine, whose Python sources are not part of the repository snapshot —
models built from the system specification (those carry a doc comment starting
with the words Modelled from the spec).
-/

namespace DataPolicyAgent

/-! ## Enums from frontend/src/api/client.ts -/

/-- The string values of the `ViolationStatus` const object in client.ts. -/
def violationStatusValues : List String :=
  ["pending", "confirmed", "false_positive", "resolved"]

/-- The `ViolationStatus` from client.ts as an inductive type. -/
inductive ViolationStatus
  | pending
  | confirmed
  | falsePositive
  | resolved
deriving DecidableEq

/-- The string value of each `ViolationStatus` member. -/
def ViolationStatus.toStr : ViolationStatus → String
  | .pending => "pending"
  | .confirmed => "confirmed"
  | .falsePositive => "false_positive"
  | .resolved => "resolved"

/-- The string values of the `Severity` const object in client.ts. -/
def severityValues : List String := ["low", "medium", "high", "critical"]

/-- The `Severity` from client.ts. -/
inductive Severity
  | low
  | medium
  | high
  | critical
deriving DecidableEq

/-- The string values of the `ScanStatus` const object in client.ts
(lines 125-130): exactly three members. -/
def scanStatusValues : List String := ["running", "completed", "failed"]

/-- The `ScanStatus` from client.ts as an inductive type. -/
inductive ScanStatus
  | running
  | completed
  | failed
deriving DecidableEq

/-- The string value of each `ScanStatus` member. -/
def ScanStatus.toStr : ScanStatus → String
  | .running => "running"
  | .completed => "completed"
  | .failed => "failed"

/-! ## Interfaces from frontend/src/api/client.ts -/

/-- The `Violation` interface from client.ts (lines 200-211). Timestamps are
modelled as `Nat`; `record_data` as a list of key/value pairs. -/
structure Violation where
  id : String
  rule_id : String
  record_identifier : String
  record_data : List (String × String)
  justification : String
  remediation_suggestion : Option String
  severity : Severity
  status : ViolationStatus
  detected_at : Nat
  resolved_at : Option Nat
deriving DecidableEq

/-- The `ComplianceRule` interface from client.ts (lines 168-179). -/
structure ComplianceRule where
  id : String
  policy_id : String
  rule_code : String
  description : String
  evaluation_criteria : String
  target_table : Option String
  generated_sql : Option String
  severity : Severity
  is_active : Bool
  created_at : Nat
deriving DecidableEq

/-- The `ScanHistory` interface from client.ts (lines 298-306). -/
structure ScanHistory where
  id : String
  started_at : Nat
  completed_at : Option Nat
  status : ScanStatus
  violations_found : Nat
  new_violations : Nat
  error_message : Option String
deriving DecidableEq

/-- The `ColumnSchema` interface from client.ts (lines 287-292). -/
structure ColumnSchema where
  name : String
  data_type : String
  is_nullable : Bool
  is_primary_key : Bool
deriving DecidableEq

/-- The `TableSchema` interface from client.ts (lines 282-285). -/
structure TableSchema where
  name : String
  columns : List ColumnSchema
deriving DecidableEq

/-- The `DatabaseSchema` interface from client.ts (lines 278-280). -/
structure DatabaseSchema where
  tables : List TableSchema
deriving DecidableEq

/-- The `DatabaseConnection` interface from client.ts (lines 260-268). -/
structure DatabaseConnection where
  id : String
  host : String
  port : Nat
  database_name : String
  username : String
  is_active : Bool
  created_at : Nat
deriving DecidableEq

/-- The `ApiError` interface from client.ts (lines 404-407). -/
structure ApiError where
  detail : String
  status_code : Option Nat
deriving DecidableEq

/-- The `MonitoringConfig` interface from client.ts (lines 325-331). -/
structure MonitoringConfig where
  id : String
  interval_minutes : Int
  is_enabled : Bool
  next_run_at : Option Int
  last_run_at : Option Int
deriving DecidableEq

/-! ## ReviewPanel.tsx review-availability logic -/

/-- From ReviewPanel.tsx line 44: the review action buttons are rendered
only when the current status is pending or confirmed. -/
def canReview (currentStatus : ViolationStatus) : Bool :=
  currentStatus == .pending || currentStatus == .confirmed

/-- From ReviewPanel.tsx line 76: the confirm button is disabled while a
request is in flight or when the violation is already confirmed. -/
def confirmButtonDisabled (isLoading : Bool) (currentStatus : ViolationStatus) : Bool :=
  isLoading || currentStatus == .confirmed

/-- From ReviewPanel.tsx line 79: the false-positive button is disabled only
while a request is in flight. -/
def falsePositiveButtonDisabled (isLoading : Bool) : Bool :=
  isLoading

/-- From ReviewPanel.tsx line 82: the resolve button is disabled only while a
request is in flight. -/
def resolveButtonDisabled (isLoading : Bool) : Bool :=
  isLoading

/-! ## client.ts helpers and database.ts API wrappers -/

/-- An axios response, reduced to its `data` payload as used by
`handleApiResponse`. -/
structure AxiosResponse (α : Type) where
  data : α

/-- The `handleApiResponse` from client.ts (lines 73-76): await the request and
return `response.data`; a rejected request propagates its `ApiError`. -/
def handleApiResponse {α : Type} (promise : Except ApiError (AxiosResponse α)) :
    Except ApiError α :=
  promise.map AxiosResponse.data

/-- The `getActiveConnection` from database.ts (lines 30-38): returns the
connection from a successful response, and `null` when the request fails for
any reason (the `catch` swallows every error). -/
def getActiveConnection
    (request : Except ApiError (AxiosResponse DatabaseConnection)) :
    Except ApiError (Option DatabaseConnection) :=
  match handleApiResponse request with
  | .ok conn => .ok (some conn)
  | .error _ => .ok none

/-! ## buildQueryParams from client.ts -/

/-- A JavaScript value as it can appear in the `Record<string, unknown>`
argument of `buildQueryParams`. -/
inductive JsValue
  | undefined
  | null
  | str (s : String)
  | num (n : Int)
  | boolean (b : Bool)
deriving DecidableEq

/-- JavaScript `String(value)` stringification for the values above. -/
def jsString : JsValue → String
  | .undefined => "undefined"
  | .null => "null"
  | .str s => s
  | .num n => toString n
  | .boolean true => "true"
  | .boolean false => "false"

/-- The filter guard of buildQueryParams (client.ts line 85):
`value !== undefined && value !== null && value !== ''`. -/
def paramKept : JsValue → Bool
  | .undefined => false
  | .null => false
  | .str s => s != ""
  | .num _ => true
  | .boolean _ => true

/-- Hexadecimal digit character for a value below 16, upper case. -/
def hexDigit (n : Nat) : Char :=
  if n < 10 then Char.ofNat (48 + n) else Char.ofNat (55 + n)

/-- Whether a byte is serialized verbatim by `URLSearchParams`
(application/x-www-form-urlencoded): ASCII alphanumerics and `*-._`. -/
def isUnreservedByte (b : UInt8) : Bool :=
  (48 ≤ b && b ≤ 57) || (65 ≤ b && b ≤ 90) || (97 ≤ b && b ≤ 122) ||
    b == 42 || b == 45 || b == 46 || b == 95

/-- Serialization of one byte under application/x-www-form-urlencoded. -/
def encodeByte (b : UInt8) : String :=
  if isUnreservedByte b then String.singleton (Char.ofNat b.toNat)
  else if b == 32 then "+"
  else "%" ++ String.singleton (hexDigit (b.toNat / 16)) ++
    String.singleton (hexDigit (b.toNat % 16))

/-- application/x-www-form-urlencoded serialization of a string, as
`URLSearchParams.toString` applies to each key and value. -/
def encodeComponent (s : String) : String :=
  s.toUTF8.toList.foldl (fun acc b => acc ++ encodeByte b) ""

/-- One `key=value` pair as serialized by `URLSearchParams.toString`. -/
def serializePair (p : String × String) : String :=
  encodeComponent p.1 ++ "=" ++ encodeComponent p.2

/-- The `URLSearchParams.toString`: the appended pairs joined with ampersands. -/
def searchParamsToString : List (String × String) → String
  | [] => ""
  | p :: ps => ps.foldl (fun acc q => acc ++ "&" ++ serializePair q) (serializePair p)

/-- The `buildQueryParams` from client.ts (lines 81-92): append every entry whose
value passes the guard to a `URLSearchParams`, serialize it, and prefix a
question mark when the serialization is nonempty. -/
def buildQueryParams (params : List (String × JsValue)) : String :=
  let searchParams := params.foldl
    (fun acc kv => if paramKept kv.2 then acc ++ [(kv.1, jsString kv.2)] else acc) []
  let queryString := searchParamsToString searchParams
  if queryString = "" then "" else "?" ++ queryString

/-! ## Spec-modelled backend: per-rule outcomes and the Diff Engine -/

/-- A result row of a successfully executed rule query: the stable record
identifier extracted from the primary-key column(s) plus the point-in-time
snapshot of the offending record's fields. -/
structure DetectedRow where
  record_identifier : String
  record_data : List (String × String)
deriving DecidableEq

/-- Modelled from the spec: the per-rule outcome recorded in a ScanRun
(sections 4.2-4.4 and 5); the backend scan executor is not in the repository
snapshot. A rule either executed successfully with a list of result rows, was
rejected by the validator, errored during execution, could not be translated,
or was skipped on run timeout. -/
inductive RuleOutcome
  | success (rows : List DetectedRow)
  | rejected (reason : String)
  | error
  | untranslatable
  | skipped
deriving DecidableEq

/-- Modelled from the spec: the lifecycle status of a tracked violation in
the Diff Engine (section 3), open or resolved. -/
inductive Lifecycle
  | isOpen
  | resolved
deriving DecidableEq

/-- Modelled from the spec: a Violation as tracked by the Diff Engine
(sections 3 and 4.4); the backend violation store is not in the repository
snapshot. -/
structure DiffViolation where
  rule_id : String
  record_identifier : String
  severity : Severity
  record_data : List (String × String)
  first_detected_at : Nat
  last_seen_at : Nat
  lifecycle : Lifecycle
  resolved_at : Option Nat
deriving DecidableEq

/-- Look up the current run's outcome for a rule in the per-rule outcome
list. -/
def lookupOutcome (outcomes : List (String × RuleOutcome)) (ruleId : String) :
    Option RuleOutcome :=
  (outcomes.find? (fun p => p.1 == ruleId)).map (fun p => p.2)

/-- Modelled from the spec: the Violation Materializer (section 3 and 4.4) —
a new Violation copies its severity from the source rule at detection time,
starts open, and has first_detected_at = last_seen_at = now. -/
def materializeViolation (rule : ComplianceRule) (recordId : String)
    (recordData : List (String × String)) (now : Nat) : DiffViolation :=
  { rule_id := rule.id
    record_identifier := recordId
    severity := rule.severity
    record_data := recordData
    first_detected_at := now
    last_seen_at := now
    lifecycle := .isOpen
    resolved_at := none }

/-- Whether a successful outcome's rows contain a given record identifier. -/
def rowsContain (rows : List DetectedRow) (recordId : String) : Bool :=
  rows.any (fun d => d.record_identifier == recordId)

/-- Modelled from the spec: the Diff Engine's treatment of one previously
open violation (section 4.4). If the violation's rule executed successfully
this run, the violation is either re-detected (bump last_seen_at) or resolved
(status resolved, resolved_at = now); if the rule was rejected, errored, was
untranslatable or skipped — or produced no outcome — the violation is left
untouched. -/
def updateOpen (outcomes : List (String × RuleOutcome)) (now : Nat)
    (v : DiffViolation) : DiffViolation :=
  match lookupOutcome outcomes v.rule_id with
  | some (.success rows) =>
      if rowsContain rows v.record_identifier then
        { v with last_seen_at := now }
      else
        { v with lifecycle := .resolved, resolved_at := some now }
  | _ => v

/-- Whether the previously open set already holds a violation for the given
(rule, record) pair. -/
def pairInPrev (prev : List DiffViolation) (ruleId recordId : String) : Bool :=
  prev.any (fun v => v.rule_id == ruleId && v.record_identifier == recordId)

/-- Modelled from the spec: the new violations materialized for one rule —
only rows of a successful outcome whose (rule, record) pair is not already
open become new violations (section 4.4). -/
def newForRule (outcomes : List (String × RuleOutcome)) (now : Nat)
    (prev : List DiffViolation) (rule : ComplianceRule) : List DiffViolation :=
  match lookupOutcome outcomes rule.id with
  | some (.success rows) =>
      (rows.filter (fun d => !pairInPrev prev rule.id d.record_identifier)).map
        (fun d => materializeViolation rule d.record_identifier d.record_data now)
  | _ => []

/-- Modelled from the spec: all new violations materialized this run. -/
def newDetections (rules : List ComplianceRule)
    (outcomes : List (String × RuleOutcome)) (now : Nat)
    (prev : List DiffViolation) : List DiffViolation :=
  rules.foldr (fun rule acc => newForRule outcomes now prev rule ++ acc) []

/-- Modelled from the spec: the full Diff Engine step (section 4.4), run once
all rule outcomes are known: every previously open violation is updated, and
the new detections are appended. -/
def diffRun (rules : List ComplianceRule)
    (outcomes : List (String × RuleOutcome)) (now : Nat)
    (prev : List DiffViolation) : List DiffViolation :=
  prev.map (updateOpen outcomes now) ++ newDetections rules outcomes now prev

/-- Modelled from the spec: the rule catalog and violation store as read and
written by the scanning engine (sections 3 and 6). -/
structure ViolationStore where
  rules : List ComplianceRule
  violations : List DiffViolation
deriving DecidableEq

/-- Modelled from the spec: a human operator's severity correction on a rule
(section 3) — it rewrites the rule catalog only. -/
def editRuleSeverity (st : ViolationStore) (ruleId : String) (sev : Severity) :
    ViolationStore :=
  { st with
    rules := st.rules.map
      (fun r => if r.id == ruleId then { r with severity := sev } else r) }

/-! ## Spec-modelled backend: Query Validator / Sandbox -/

/-- Modelled from the spec: the verb of a parsed SQL statement (sections 4.3
and 9 — candidate queries are parsed into an abstract representation). -/
inductive SqlVerb
  | select
  | insert
  | update
  | delete
  | drop
  | alter
  | create
  | truncate
deriving DecidableEq

/-- Modelled from the spec: one parsed SQL statement with the tables and
(table, column) pairs it references and whether its result clause is
bounded. -/
structure SqlStatement where
  verb : SqlVerb
  tables : List String
  columns : List (String × String)
  hasLimit : Bool
deriving DecidableEq

/-- Modelled from the spec: a CandidateQuery (section 3) — the Rule
Translator's raw output parsed into statements, tagged with the rule it was
generated for. -/
structure CandidateQuery where
  rule_id : String
  statements : List SqlStatement
deriving DecidableEq

/-- Modelled from the spec: a query that passed the validator and may be
executed. -/
structure ValidatedQuery where
  rule_id : String
  stmt : SqlStatement
deriving DecidableEq

/-- Whether the schema snapshot has a table of the given name. -/
def schemaHasTable (schema : DatabaseSchema) (t : String) : Bool :=
  schema.tables.any (fun tb => tb.name == t)

/-- Whether the schema snapshot has the given column on the given table. -/
def schemaHasColumn (schema : DatabaseSchema) (t c : String) : Bool :=
  schema.tables.any (fun tb => tb.name == t && tb.columns.any (fun col => col.name == c))

/-- Whether a statement verb is read-only. -/
def readOnlyVerb : SqlVerb → Bool
  | .select => true
  | _ => false

/-- Modelled from the spec: the Query Validator / Sandbox (section 4.3); the
backend validator is not in the repository snapshot. In order: single
statement, read-only verb, every referenced table and column present in the
schema snapshot, and a row-count bound injected when absent. -/
def validate (schema : DatabaseSchema) (q : CandidateQuery) :
    Except String ValidatedQuery :=
  match q.statements with
  | [stmt] =>
      if !readOnlyVerb stmt.verb then
        .error "statement is not read-only"
      else if !stmt.tables.all (fun t => schemaHasTable schema t) then
        .error "references a table absent from the schema snapshot"
      else if !stmt.columns.all (fun p => schemaHasColumn schema p.1 p.2) then
        .error "references a column absent from the schema snapshot"
      else
        .ok { rule_id := q.rule_id
              stmt := if stmt.hasLimit then stmt else { stmt with hasLimit := true } }
  | _ => .error "must be a single statement"

/-- Modelled from the spec: the executor path for one rule (sections 4.3 and
4.4) — only a query accepted by the validator is ever executed; a rejected
query yields a rejected outcome and runs nothing. `runQuery` stands for the
sandboxed execution of a validated query. -/
def executeRule (schema : DatabaseSchema) (q : CandidateQuery)
    (runQuery : ValidatedQuery → List DetectedRow) : RuleOutcome :=
  match validate schema q with
  | .ok vq => .success (runQuery vq)
  | .error reason => .rejected reason

/-! ## Spec-modelled backend: Scan Coordinator / Scheduler -/

/-- Modelled from the spec: the coordinator state machine (sections 4.5 and
9); the backend scheduler is not in the repository snapshot. -/
inductive CoordState
  | idle
  | running (runId : Nat)
  | coolingDown (attempt : Nat) (nextRetryAt : Nat)
deriving DecidableEq

/-- Modelled from the spec: a ScanRun as tracked by the coordinator
(section 3), with the status values of the frontend `ScanStatus` enum. -/
structure ScanRun where
  id : Nat
  started_at : Nat
  completed_at : Option Nat
  status : ScanStatus
deriving DecidableEq

/-- Modelled from the spec: the coordinator's state — its state-machine node
plus the persisted ScanRun records. -/
structure SchedState where
  coord : CoordState
  runs : List ScanRun
deriving DecidableEq

/-- Modelled from the spec: the observable result of `trigger_scan`
(section 6): a started run, or rejection with the message
"scan already in progress". -/
inductive TriggerResult
  | started (runId : Nat)
  | alreadyInProgress
deriving DecidableEq

/-- The number of ScanRun records currently in the running state. -/
def countRunning (runs : List ScanRun) : Nat :=
  (runs.filter (fun r => r.status == .running)).length

/-- Modelled from the spec: the fresh ScanRun record started by a trigger. -/
def newRun (now newId : Nat) : ScanRun :=
  { id := newId, started_at := now, completed_at := none, status := .running }

/-- Modelled from the spec: `trigger_scan` (sections 4.5 and 6) — guarded by
the mutual-exclusion lock: while a ScanRun is running the trigger is rejected
and nothing changes (not queued); otherwise a fresh running ScanRun is
started. Manual and timer-driven triggers share this path. -/
def trigger_scan (s : SchedState) (now newId : Nat) : SchedState × TriggerResult :=
  match s.coord with
  | .running _ => (s, .alreadyInProgress)
  | _ =>
      ({ coord := .running newId, runs := s.runs ++ [newRun now newId] },
       .started newId)

/-- Modelled from the spec: run completion (section 4.5) — the running
ScanRun transitions to the given terminal status; the coordinator returns to
idle on completion and to cooling-down on whole-run fatal failure. -/
def completeRun (s : SchedState) (finishedAt : Nat) (final : ScanStatus) :
    SchedState :=
  match s.coord with
  | .running rid =>
      { coord := if final == .failed then .coolingDown 0 finishedAt else .idle
        runs := s.runs.map (fun r =>
          if r.id == rid then { r with status := final, completed_at := some finishedAt }
          else r) }
  | _ => s

/-- The coordinator's mutual-exclusion invariant: when the coordinator is in
the running state there is exactly one running ScanRun and it carries the
coordinator's run id; otherwise no ScanRun is running. -/
def wf (s : SchedState) : Bool :=
  match s.coord with
  | .running rid =>
      countRunning s.runs == 1 &&
        s.runs.all (fun r => r.status != .running || r.id == rid)
  | _ => countRunning s.runs == 0

/-! ## Spec-modelled backend: schedule configuration -/

/-- The interval choices offered by ScheduleConfig.tsx (lines 21-27). -/
def intervalOptionValues : List Int := [60, 120, 360, 720, 1440]

/-- Modelled from the spec: `configure_schedule` (sections 3 and 6) and the
validation rule of the design document (60 ≤ interval ≤ 1440); the backend
scheduler endpoint is not in the repository snapshot. An in-range interval is
stored and next_run_at recomputed from now; anything else is rejected. -/
def configure_schedule (intervalMinutes : Int) (now : Int) :
    Except String MonitoringConfig :=
  if 60 ≤ intervalMinutes ∧ intervalMinutes ≤ 1440 then
    .ok { id := "monitoring-config"
          interval_minutes := intervalMinutes
          is_enabled := true
          next_run_at := some (now + intervalMinutes * 60)
          last_run_at := none }
  else
    .error "Scan interval must be between 1 hour and 24 hours."

/-! ## Concrete fixtures used to exercise the theorems -/

/-- A concrete active rule, after the FIN-002 scenario of the spec. -/
def sampleRule : ComplianceRule :=
  { id := "rule-1"
    policy_id := "policy-1"
    rule_code := "FIN-002"
    description := "unverified transactions above threshold"
    evaluation_criteria := "amount above 10000 and verified is false"
    target_table := some "transactions"
    generated_sql := none
    severity := .critical
    is_active := true
    created_at := 0 }

/-- A concrete previously open violation of sampleRule. -/
def sampleOpenViolation : DiffViolation :=
  { rule_id := "rule-1"
    record_identifier := "42"
    severity := .critical
    record_data := [("amount", "12000")]
    first_detected_at := 1
    last_seen_at := 1
    lifecycle := .isOpen
    resolved_at := none }

/-- A concrete result row re-detecting sampleOpenViolation's record. -/
def sampleRows : List DetectedRow :=
  [{ record_identifier := "42", record_data := [("amount", "12000")] }]

/-- Per-rule outcomes of a run in which sampleRule errored. -/
def erroredOutcomes : List (String × RuleOutcome) := [("rule-1", .error)]

/-- Per-rule outcomes of a run in which sampleRule succeeded and re-detected
record 42. -/
def successOutcomes : List (String × RuleOutcome) := [("rule-1", .success sampleRows)]

/-- A concrete frontend violation record. -/
def sampleViolationRecord : Violation :=
  { id := "violation-1"
    rule_id := "rule-1"
    record_identifier := "42"
    record_data := [("amount", "12000")]
    justification := "amount exceeds the threshold and is unverified"
    remediation_suggestion := none
    severity := .critical
    status := .pending
    detected_at := 1
    resolved_at := none }

/-- A concrete schema snapshot with a single transactions table. -/
def sampleSchema : DatabaseSchema :=
  { tables := [{ name := "transactions"
                 columns := [{ name := "id", data_type := "integer",
                               is_nullable := false, is_primary_key := true },
                             { name := "amount", data_type := "numeric",
                               is_nullable := false, is_primary_key := false }] }] }

/-- A concrete candidate query referencing a table absent from
sampleSchema. -/
def hallucinatedQuery : CandidateQuery :=
  { rule_id := "rule-1"
    statements := [{ verb := .select
                     tables := ["accounts"]
                     columns := [("accounts", "balance")]
                     hasLimit := false }] }

/-- A stub sandboxed execution returning no rows. -/
def noRows : ValidatedQuery → List DetectedRow := fun _ => []

/-- A concrete coordinator state with one ScanRun in the running state. -/
def runningSched : SchedState :=
  { coord := .running 0
    runs := [{ id := 0, started_at := 0, completed_at := none, status := .running }] }

/-! ## Helper lemmas -/

/-- The appending fold of buildQueryParams equals filtering then
stringifying. -/
theorem foldl_filter_append (params : List (String × JsValue))
    (acc : List (String × String)) :
    params.foldl
      (fun acc kv => if paramKept kv.2 then acc ++ [(kv.1, jsString kv.2)] else acc)
      acc
      = acc ++ (params.filter (fun kv => paramKept kv.2)).map
          (fun kv => (kv.1, jsString kv.2)) := by
  induction params generalizing acc with
  | nil => simp
  | cons kv rest ih =>
      cases hb : paramKept kv.2 <;>
        simp [List.foldl_cons, List.filter_cons, hb, ih]

/-- A serialized key/value pair is never the empty string: it contains the
equals sign. -/
theorem serializePair_length (p : String × String) : 1 ≤ (serializePair p).length := by
  have h1 : "=".length = 1 := rfl
  simp [serializePair, String.length_append, h1]
  omega

/-- The joining fold of searchParamsToString never shrinks the
accumulator. -/
theorem foldl_join_length (ps : List (String × String)) (acc : String) :
    acc.length ≤ (ps.foldl (fun a q => a ++ "&" ++ serializePair q) acc).length := by
  induction ps generalizing acc with
  | nil => simp
  | cons q rest ih =>
      refine le_trans ?_ (ih (acc ++ "&" ++ serializePair q))
      simp [String.length_append]
      omega

/-- The serialization of a nonempty parameter list is nonempty. -/
theorem searchParamsToString_ne_empty (p : String × String)
    (ps : List (String × String)) : searchParamsToString (p :: ps) ≠ "" := by
  intro h
  have hlen : (searchParamsToString (p :: ps)).length = 0 := by rw [h]; rfl
  have h1 := foldl_join_length ps (serializePair p)
  have h2 := serializePair_length p
  rw [searchParamsToString] at hlen
  omega

/-! ## Claim theorems -/

/-- C8: the ReviewPanel offers the review action buttons exactly for the
pending and confirmed statuses; for resolved and false_positive no review
action can be initiated, and for confirmed the confirm button is additionally
disabled while the other two are enabled when no request is in flight. -/
theorem reviewPanel_actions_iff_pending_or_confirmed :
    canReview .pending = true ∧ canReview .confirmed = true ∧
    canReview .resolved = false ∧ canReview .falsePositive = false ∧
    confirmButtonDisabled false .confirmed = true ∧
    confirmButtonDisabled false .pending = false ∧
    falsePositiveButtonDisabled false = false ∧
    resolveButtonDisabled false = false := by
  decide

/-- C9: getActiveConnection never rejects — for every outcome of the
underlying request it answers with the connection of a successful response
or with null on any failure, and no error is propagated. -/
theorem getActiveConnection_never_rejects :
    ∀ request : Except ApiError (AxiosResponse DatabaseConnection),
      getActiveConnection request =
        .ok (match request with
             | .ok response => some response.data
             | .error _ => none) := by
  intro request
  cases request <;> rfl

/-- C10: buildQueryParams produces exactly the entries whose values are
neither undefined, null, nor the empty string, each value stringified and
prefixed with a question mark; when no entry survives the filter the result
is the empty string with no prefix. -/
theorem buildQueryParams_keeps_exactly_nonempty_entries :
    ∀ params : List (String × JsValue),
      buildQueryParams params =
        if params.filter (fun kv => paramKept kv.2) = [] then ""
        else "?" ++ searchParamsToString
          ((params.filter (fun kv => paramKept kv.2)).map
            (fun kv => (kv.1, jsString kv.2))) := by
  intro params
  unfold buildQueryParams
  rw [foldl_filter_append params []]
  simp only [List.nil_append]
  cases hk : params.filter (fun kv => paramKept kv.2) with
  | nil => simp [searchParamsToString]
  | cons p rest =>
      simp [searchParamsToString_ne_empty]

/-- C5 counterexample: the claim says the overall status is drawn from
exactly four values, but completed_with_errors is not among the ScanStatus
values declared in client.ts. -/
theorem scanStatus_has_no_completed_with_errors :
    "completed_with_errors" ∉ scanStatusValues := by
  decide

/-- C5 amended: every ScanRun's overall status is one of exactly the three
values running, completed and failed; there is no distinct
completed_with_errors status. -/
theorem scanRun_status_exactly_three_values :
    ∀ h : ScanHistory,
      (h.status = .running ∨ h.status = .completed ∨ h.status = .failed) ∧
      h.status.toStr ∈ scanStatusValues ∧
      scanStatusValues.length = 3 := by
  intro h
  refine ⟨?_, ?_, rfl⟩ <;> cases h.status <;> simp [ScanStatus.toStr, scanStatusValues]

/-- C4 counterexample: the claim says the lifecycle status is drawn from
exactly the set containing open and resolved, but pending is a
ViolationStatus value and lies outside that set. -/
theorem violationStatus_pending_outside_open_resolved :
    "pending" ∈ violationStatusValues ∧ "pending" ∉ ["open", "resolved"] := by
  decide

/-- updateOpen never changes a violation's severity, whichever branch is
taken. -/
theorem updateOpen_severity (outcomes : List (String × RuleOutcome)) (now : Nat)
    (v : DiffViolation) : (updateOpen outcomes now v).severity = v.severity := by
  rcases ho : lookupOutcome outcomes v.rule_id with _ | o
  · simp [updateOpen, ho]
  · cases o with
    | success rows =>
        by_cases hc : rowsContain rows v.record_identifier = true
        · simp [updateOpen, ho, hc]
        · simp [updateOpen, ho, hc]
    | rejected reason => simp [updateOpen, ho]
    | error => simp [updateOpen, ho]
    | untranslatable => simp [updateOpen, ho]
    | skipped => simp [updateOpen, ho]

/-- updateOpen never changes a violation's (rule, record) identity. -/
theorem updateOpen_identity (outcomes : List (String × RuleOutcome)) (now : Nat)
    (v : DiffViolation) :
    (updateOpen outcomes now v).rule_id = v.rule_id ∧
    (updateOpen outcomes now v).record_identifier = v.record_identifier := by
  rcases ho : lookupOutcome outcomes v.rule_id with _ | o
  · simp [updateOpen, ho]
  · cases o with
    | success rows =>
        by_cases hc : rowsContain rows v.record_identifier = true
        · simp [updateOpen, ho, hc]
        · simp [updateOpen, ho, hc]
    | rejected reason => simp [updateOpen, ho]
    | error => simp [updateOpen, ho]
    | untranslatable => simp [updateOpen, ho]
    | skipped => simp [updateOpen, ho]

/-- Unfolding lemma: newDetections over a cons cell. -/
theorem newDetections_cons (rule : ComplianceRule) (rules : List ComplianceRule)
    (outcomes : List (String × RuleOutcome)) (now : Nat)
    (prev : List DiffViolation) :
    newDetections (rule :: rules) outcomes now prev =
      newForRule outcomes now prev rule ++ newDetections rules outcomes now prev := rfl

/-- Membership in newDetections comes from some rule's newForRule list. -/
theorem mem_newDetections (rules : List ComplianceRule)
    (outcomes : List (String × RuleOutcome)) (now : Nat)
    (prev : List DiffViolation) (u : DiffViolation) :
    u ∈ newDetections rules outcomes now prev ↔
      ∃ rule ∈ rules, u ∈ newForRule outcomes now prev rule := by
  induction rules with
  | nil => simp [newDetections]
  | cons rule rest ih =>
      rw [newDetections_cons, List.mem_append, ih]
      simp

/-- C6: a Violation's severity equals the source rule's severity at
materialization time and never changes afterwards — editing a rule's severity
rewrites the rule catalog only, and the Diff Engine's update of an open
violation preserves its severity. -/
theorem violation_severity_frozen :
    ∀ (rule : ComplianceRule) (recordId : String)
      (recordData : List (String × String)) (now : Nat)
      (st : ViolationStore) (ruleId : String) (sev : Severity)
      (outcomes : List (String × RuleOutcome)) (m : Nat) (v : DiffViolation),
      (materializeViolation rule recordId recordData now).severity = rule.severity ∧
      (editRuleSeverity st ruleId sev).violations = st.violations ∧
      (updateOpen outcomes m v).severity = v.severity := by
  intro rule recordId recordData now st ruleId sev outcomes m v
  exact ⟨rfl, rfl, updateOpen_severity outcomes m v⟩

/-- C2: a previously open violation whose rule was rejected, errored or was
untranslatable this run is left completely unchanged by the diffing step, and
it survives the run verbatim in the diffed violation set. -/
theorem unevaluated_rule_leaves_violation_untouched :
    ∀ (rules : List ComplianceRule) (outcomes : List (String × RuleOutcome))
      (now : Nat) (prev : List DiffViolation) (v : DiffViolation),
      v ∈ prev →
      ((∃ reason, lookupOutcome outcomes v.rule_id = some (.rejected reason)) ∨
        lookupOutcome outcomes v.rule_id = some .error ∨
        lookupOutcome outcomes v.rule_id = some .untranslatable) →
      updateOpen outcomes now v = v ∧ v ∈ diffRun rules outcomes now prev := by
  intro rules outcomes now prev v hv hout
  have hupd : updateOpen outcomes now v = v := by
    unfold updateOpen
    rcases hout with ⟨reason, hr⟩ | hr | hr <;> rw [hr]
  refine ⟨hupd, ?_⟩
  unfold diffRun
  exact List.mem_append_left _ (List.mem_map.mpr ⟨v, hv, hupd⟩)

/-- C2 witness: a concrete open violation whose rule errored survives a
concrete run untouched. -/
theorem unevaluated_rule_leaves_violation_untouched_witness :
    updateOpen erroredOutcomes 7 sampleOpenViolation = sampleOpenViolation ∧
    sampleOpenViolation ∈ diffRun [sampleRule] erroredOutcomes 7 [sampleOpenViolation] :=
  unevaluated_rule_leaves_violation_untouched [sampleRule] erroredOutcomes 7
    [sampleOpenViolation] sampleOpenViolation (by decide)
    (Or.inr (Or.inl (by decide)))

/-- C4 amended: every Violation carries detected_at and nullable resolved_at
timestamps and a status drawn from exactly the four values pending,
confirmed, false_positive and resolved; in the Diff Engine modelled from the
spec, a re-detected violation has last_seen_at bumped in place, no new row
is materialized for its (rule, record) pair, and a violation becomes resolved
only when its rule executed successfully and its record is absent from the
results. -/
theorem violation_lifecycle_amended :
    ∀ (w : Violation) (rules : List ComplianceRule)
      (outcomes : List (String × RuleOutcome)) (now : Nat)
      (prev : List DiffViolation) (v v' : DiffViolation)
      (rows : List DetectedRow),
      v ∈ prev →
      lookupOutcome outcomes v.rule_id = some (.success rows) →
      rowsContain rows v.record_identifier = true →
      (w.status = .pending ∨ w.status = .confirmed ∨ w.status = .falsePositive ∨
        w.status = .resolved) ∧
      updateOpen outcomes now v = { v with last_seen_at := now } ∧
      (∀ u ∈ newDetections rules outcomes now prev,
        ¬(u.rule_id = v.rule_id ∧ u.record_identifier = v.record_identifier)) ∧
      ((updateOpen outcomes now v').lifecycle = .resolved →
        v'.lifecycle = .resolved ∨
        ∃ rows2, lookupOutcome outcomes v'.rule_id = some (.success rows2) ∧
          rowsContain rows2 v'.record_identifier = false) := by
  intro w rules outcomes now prev v v' rows hv hlook hcontain
  refine ⟨?_, ?_, ?_, ?_⟩
  · cases w.status
    · exact Or.inl rfl
    · exact Or.inr (Or.inl rfl)
    · exact Or.inr (Or.inr (Or.inl rfl))
    · exact Or.inr (Or.inr (Or.inr rfl))
  · simp [updateOpen, hlook, hcontain]
  · intro u hu hpair
    rcases (mem_newDetections rules outcomes now prev u).mp hu with ⟨rule, _, hin⟩
    unfold newForRule at hin
    rcases ho : lookupOutcome outcomes rule.id with _ | o
    · rw [ho] at hin; cases hin
    · rw [ho] at hin
      cases o with
      | success rows0 =>
          rcases List.mem_map.mp hin with ⟨d, hd, hud⟩
          have hfilter := (List.mem_filter.mp hd).2
          have hurule : u.rule_id = rule.id := by rw [← hud]; rfl
          have hurec : u.record_identifier = d.record_identifier := by
            rw [← hud]; rfl
          have hprev : pairInPrev prev rule.id d.record_identifier = true := by
            unfold pairInPrev
            rw [List.any_eq_true]
            refine ⟨v, hv, ?_⟩
            have h1 : v.rule_id = rule.id := by
              rw [← hurule, ← hpair.1]
            have h2 : v.record_identifier = d.record_identifier := by
              rw [← hurec, ← hpair.2]
            rw [h1, h2]
            simp
          rw [hprev] at hfilter
          simp at hfilter
      | rejected reason => cases hin
      | error => cases hin
      | untranslatable => cases hin
      | skipped => cases hin
  · intro hres
    rcases ho : lookupOutcome outcomes v'.rule_id with _ | o
    · simp only [updateOpen, ho] at hres
      exact Or.inl hres
    · cases o with
      | success rows2 =>
          by_cases hc : rowsContain rows2 v'.record_identifier = true
          · simp only [updateOpen, ho, hc, if_true] at hres
            exact Or.inl hres
          · exact Or.inr ⟨rows2, rfl, by simpa using hc⟩
      | rejected reason =>
          simp only [updateOpen, ho] at hres
          exact Or.inl hres
      | error =>
          simp only [updateOpen, ho] at hres
          exact Or.inl hres
      | untranslatable =>
          simp only [updateOpen, ho] at hres
          exact Or.inl hres
      | skipped =>
          simp only [updateOpen, ho] at hres
          exact Or.inl hres

/-- C4 amended witness: a concrete re-detected open violation has
last_seen_at bumped in place by the Diff Engine. -/
theorem violation_lifecycle_amended_witness :
    updateOpen successOutcomes 7 sampleOpenViolation =
      { sampleOpenViolation with last_seen_at := 7 } :=
  (violation_lifecycle_amended sampleViolationRecord [sampleRule] successOutcomes 7
    [sampleOpenViolation] sampleOpenViolation sampleOpenViolation sampleRows
    (by decide) (by decide) (by decide)).2.1

/-- A limit-injected statement references the same tables and columns. -/
theorem injectLimit_refs (stmt : SqlStatement) :
    (if stmt.hasLimit then stmt else { stmt with hasLimit := true }).tables = stmt.tables ∧
    (if stmt.hasLimit then stmt else { stmt with hasLimit := true }).columns = stmt.columns := by
  cases h : stmt.hasLimit <;> simp [h]

/-- C3: a candidate query accepted by the validator references only tables
and columns present in the schema snapshot, and a query referencing a table
or column absent from the snapshot is rejected and never executed — the
executor turns it into a rejected outcome without running anything. -/
theorem validator_accepts_only_known_schema :
    ∀ (schema : DatabaseSchema) (q : CandidateQuery)
      (runQuery : ValidatedQuery → List DetectedRow),
      (∀ vq, validate schema q = .ok vq →
        (∀ t ∈ vq.stmt.tables, schemaHasTable schema t = true) ∧
        (∀ p ∈ vq.stmt.columns, schemaHasColumn schema p.1 p.2 = true)) ∧
      ((∃ stmt ∈ q.statements,
          (∃ t ∈ stmt.tables, schemaHasTable schema t = false) ∨
          (∃ p ∈ stmt.columns, schemaHasColumn schema p.1 p.2 = false)) →
        ∃ e, validate schema q = .error e ∧
          executeRule schema q runQuery = .rejected e) := by
  intro schema q runQuery
  constructor
  · intro vq h
    rcases hq : q.statements with _ | ⟨stmt, rest⟩
    · simp [validate, hq] at h
    · rcases rest with _ | ⟨s2, rest2⟩
      · simp only [validate, hq] at h
        by_cases hv : readOnlyVerb stmt.verb = true
        · by_cases ht : stmt.tables.all (fun t => schemaHasTable schema t) = true
          · by_cases hc : stmt.columns.all (fun p => schemaHasColumn schema p.1 p.2) = true
            · rw [if_neg (by simp [hv]), if_neg (by simp [ht]),
                if_neg (by simp [hc])] at h
              injection h with h5
              subst h5
              have hrefs := injectLimit_refs stmt
              constructor
              · intro t htm
                rw [hrefs.1] at htm
                simpa using List.all_eq_true.mp ht t htm
              · intro p hpm
                rw [hrefs.2] at hpm
                simpa using List.all_eq_true.mp hc p hpm
            · rw [if_neg (by simp [hv]), if_neg (by simp [ht]),
                if_pos (by simpa using hc)] at h
              simp at h
          · rw [if_neg (by simp [hv]), if_pos (by simpa using ht)] at h
            simp at h
        · rw [if_pos (by simpa using hv)] at h
          simp at h
      · simp [validate, hq] at h
  · intro hbad
    rcases hq : q.statements with _ | ⟨stmt, rest⟩
    · rw [hq] at hbad
      simp at hbad
    · rcases rest with _ | ⟨s2, rest2⟩
      · rw [hq] at hbad
        obtain ⟨s, hs, hbadref⟩ := hbad
        have hss : s = stmt := by simpa using hs
        subst hss
        by_cases hv : readOnlyVerb s.verb = true
        · by_cases ht : s.tables.all (fun t => schemaHasTable schema t) = true
          · have hcols : s.columns.all (fun p => schemaHasColumn schema p.1 p.2) = false := by
              rcases hbadref with ⟨t, htm, htf⟩ | ⟨p, hpm, hpf⟩
              · exact absurd (by simpa using List.all_eq_true.mp ht t htm) (by simp [htf])
              · cases hall : s.columns.all (fun p => schemaHasColumn schema p.1 p.2) with
                | true =>
                    exact absurd (by simpa using List.all_eq_true.mp hall p hpm)
                      (by simp [hpf])
                | false => rfl
            refine ⟨"references a column absent from the schema snapshot", ?_, ?_⟩
            · simp [validate, hq, hv, ht, hcols]
            · simp [executeRule, validate, hq, hv, ht, hcols]
          · have ht' : s.tables.all (fun t => schemaHasTable schema t) = false := by
              simpa using ht
            refine ⟨"references a table absent from the schema snapshot", ?_, ?_⟩
            · simp [validate, hq, hv, ht']
            · simp [executeRule, validate, hq, hv, ht']
        · have hv' : readOnlyVerb s.verb = false := by simpa using hv
          refine ⟨"statement is not read-only", ?_, ?_⟩
          · simp [validate, hq, hv']
          · simp [executeRule, validate, hq, hv']
      · refine ⟨"must be a single statement", ?_, ?_⟩
        · simp [validate, hq]
        · simp [executeRule, validate, hq]

/-- C3 witness: a concrete query naming a table absent from the concrete
schema is rejected and never executed. -/
theorem validator_accepts_only_known_schema_witness :
    ∃ e, validate sampleSchema hallucinatedQuery = .error e ∧
      executeRule sampleSchema hallucinatedQuery noRows = .rejected e :=
  (validator_accepts_only_known_schema sampleSchema hallucinatedQuery noRows).2
    (by decide)

/-- A list of runs none of which is running has zero running runs. -/
theorem countRunning_eq_zero_of_none (runs : List ScanRun)
    (h : ∀ r ∈ runs, r.status ≠ .running) : countRunning runs = 0 := by
  unfold countRunning
  rw [List.length_eq_zero, List.filter_eq_nil]
  intro r hr
  simpa using h r hr

/-- Zero running runs means no run is in the running state. -/
theorem no_running_of_countRunning_zero (runs : List ScanRun)
    (h : countRunning runs = 0) : ∀ r ∈ runs, r.status ≠ .running := by
  unfold countRunning at h
  rw [List.length_eq_zero, List.filter_eq_nil] at h
  intro r hr
  simpa using h r hr

/-- countRunning distributes over append. -/
theorem countRunning_append (a b : List ScanRun) :
    countRunning (a ++ b) = countRunning a + countRunning b := by
  simp [countRunning, List.filter_append]

/-- Starting a fresh run from a state with no running run yields a
well-formed state. -/
theorem wf_start (runs : List ScanRun) (now newId : Nat)
    (h0 : countRunning runs = 0) :
    wf { coord := .running newId, runs := runs ++ [newRun now newId] } = true := by
  have hnone := no_running_of_countRunning_zero runs h0
  have hcount : countRunning (runs ++ [newRun now newId]) = 1 := by
    rw [countRunning_append, h0]
    rfl
  have hall : (runs ++ [newRun now newId]).all
      (fun r => r.status != ScanStatus.running || r.id == newId) = true := by
    rw [List.all_append, Bool.and_eq_true]
    constructor
    · rw [List.all_eq_true]
      intro r hr
      have hn := hnone r hr
      simp only [Bool.or_eq_true, bne_iff_ne, beq_iff_eq, ne_eq]
      exact Or.inl hn
    · simp [newRun]
  show (countRunning (runs ++ [newRun now newId]) == 1 &&
    (runs ++ [newRun now newId]).all
      (fun r => r.status != ScanStatus.running || r.id == newId)) = true
  rw [hcount, hall]
  rfl

/-- C1: the coordinator invariant — at most one ScanRun is running — is
preserved: a trigger while a ScanRun is running is rejected with the state
unchanged (observing scan-already-in-progress, not queued), a trigger
otherwise starts exactly one run, and on completion exactly the single
running ScanRun transitions to a terminal status while every other run is
untouched. -/
theorem scan_run_mutual_exclusion :
    ∀ (s : SchedState) (now newId finishedAt : Nat) (final : ScanStatus),
      wf s = true →
      countRunning s.runs ≤ 1 ∧
      (∀ rid, s.coord = .running rid →
        trigger_scan s now newId = (s, .alreadyInProgress)) ∧
      wf (trigger_scan s now newId).1 = true ∧
      (final ≠ .running →
        wf (completeRun s finishedAt final) = true ∧
        ∀ rid, s.coord = .running rid →
          countRunning s.runs = 1 ∧
          countRunning (completeRun s finishedAt final).runs = 0 ∧
          ∀ r ∈ s.runs, r.id ≠ rid → r ∈ (completeRun s finishedAt final).runs) := by
  intro s now newId finishedAt final hwf
  obtain ⟨coord, runs⟩ := s
  cases coord with
  | idle =>
      have h0 : countRunning runs = 0 := by simpa [wf] using hwf
      have hnone := no_running_of_countRunning_zero runs h0
      refine ⟨?_, ?_, ?_, ?_⟩
      · show countRunning runs ≤ 1
        omega
      · intro rid h
        cases h
      · exact wf_start runs now newId h0
      · intro _
        refine ⟨by simpa [completeRun, wf] using h0, ?_⟩
        intro rid h
        cases h
  | coolingDown attempt nextRetryAt =>
      have h0 : countRunning runs = 0 := by simpa [wf] using hwf
      have hnone := no_running_of_countRunning_zero runs h0
      refine ⟨?_, ?_, ?_, ?_⟩
      · show countRunning runs ≤ 1
        omega
      · intro rid h
        cases h
      · exact wf_start runs now newId h0
      · intro _
        refine ⟨by simpa [completeRun, wf] using h0, ?_⟩
        intro rid h
        cases h
  | running rid0 =>
      have hwf' : countRunning runs = 1 ∧
          ∀ r ∈ runs, r.status ≠ .running ∨ r.id = rid0 := by
        have := hwf
        simp only [wf, Bool.and_eq_true, List.all_eq_true, beq_iff_eq,
          Bool.or_eq_true, bne_iff_ne, ne_eq] at this
        exact ⟨by simpa using this.1, by
          intro r hr
          have := this.2 r hr
          tauto⟩
      obtain ⟨h1, h2⟩ := hwf'
      have hafter : ∀ r ∈ (completeRun ⟨.running rid0, runs⟩ finishedAt final).runs,
          final ≠ .running → r.status ≠ .running := by
        intro r hr hfin
        simp only [completeRun] at hr
        rcases List.mem_map.mp hr with ⟨r0, hr0, hr0eq⟩
        by_cases hid : (r0.id == rid0) = true
        · rw [if_pos hid] at hr0eq
          rw [← hr0eq]
          simpa using hfin
        · rw [if_neg hid] at hr0eq
          rw [← hr0eq]
          rcases h2 r0 hr0 with h | h
          · exact h
          · exact absurd (by simp [h]) hid
      refine ⟨by show countRunning runs ≤ 1; omega, ?_, ?_, ?_⟩
      · intro rid h
        rfl
      · show wf ⟨.running rid0, runs⟩ = true
        exact hwf
      · intro hfin
        constructor
        · have hz := countRunning_eq_zero_of_none
            ((completeRun ⟨.running rid0, runs⟩ finishedAt final).runs)
            (fun r hr => hafter r hr hfin)
          cases hb : (final == ScanStatus.failed)
          · simp [completeRun, wf, hb]
            simpa [completeRun] using hz
          · simp [completeRun, wf, hb]
            simpa [completeRun] using hz
        · intro rid h
          have hr : rid = rid0 := by cases h; rfl
          subst hr
          refine ⟨h1, countRunning_eq_zero_of_none _
            (fun r hr => hafter r hr hfin), ?_⟩
          intro r hrm hrne
          simp only [completeRun]
          refine List.mem_map.mpr ⟨r, hrm, ?_⟩
          rw [if_neg (by simpa using hrne)]

/-- C1 witness: a trigger while the concrete coordinator state has a running
ScanRun is rejected and changes nothing. -/
theorem scan_run_mutual_exclusion_witness :
    trigger_scan runningSched 3 1 = (runningSched, .alreadyInProgress) :=
  ((scan_run_mutual_exclusion runningSched 3 1 9 .completed (by decide)).2.1) 0 rfl

/-- C7: a schedule configuration accepted by configure_schedule stores an
interval between 60 and 1440 minutes inclusive; an interval outside this
range is rejected; every interval option offered by the frontend lies within
the bounds. -/
theorem configure_schedule_interval_bounds :
    ∀ (i now : Int),
      (∀ cfg, configure_schedule i now = .ok cfg →
        60 ≤ cfg.interval_minutes ∧ cfg.interval_minutes ≤ 1440 ∧
        cfg.interval_minutes = i) ∧
      ((i < 60 ∨ 1440 < i) → ∃ e, configure_schedule i now = .error e) ∧
      (∀ v ∈ intervalOptionValues, 60 ≤ v ∧ v ≤ 1440) := by
  intro i now
  refine ⟨?_, ?_, by decide⟩
  · intro cfg h
    unfold configure_schedule at h
    split_ifs at h with hcond
    injection h with h2
    subst h2
    exact ⟨hcond.1, hcond.2, rfl⟩
  · intro hout
    have hn : ¬(60 ≤ i ∧ i ≤ 1440) := by
      rcases hout with h | h <;> omega
    exact ⟨"Scan interval must be between 1 hour and 24 hours.",
      by simp [configure_schedule, hn]⟩

/-- C7 witness: the concrete interval 1500 lies outside the bounds and is
rejected by configure_schedule. -/
theorem configure_schedule_interval_bounds_witness :
    ∃ e, configure_schedule 1500 0 = .error e :=
  (configure_schedule_interval_bounds 1500 0).2.1 (Or.inr (by decide))

end DataPolicyAgent
